import Mathlib

set_option maxHeartbeats 1000000

/- Verification development for the despia-cloud-builder repository.
   The embedding covers the Express POST /build handler (api/index.js),
   the Codemagic workflow scripts (README.md) and the detect/build
   shell scripts (build_deploy.sh). -/

/-- Char-list test: is the first list a leading segment of the second. -/
def listStartsWith : List Char → List Char → Bool
  | [], _ => true
  | _ :: _, [] => false
  | a :: as, b :: bs => a == b && listStartsWith as bs

/-- Char-list test: does pat occur contiguously inside the list. -/
def listHasSub (pat : List Char) : List Char → Bool
  | [] => listStartsWith pat []
  | c :: t => listStartsWith pat (c :: t) || listHasSub pat t

/-- Substring test, modelling the bash pattern match and grep -q. -/
def strContains (s pat : String) : Bool := listHasSub pat.toList s.toList

/-- Suffix test, modelling the JS endsWith used on source_url. -/
def strEndsWith (s suf : String) : Bool :=
  listStartsWith suf.toList.reverse s.toList.reverse

/-- Declared-dependency flags of the package.json manifest. A flag is
true iff the corresponding dependency is declared, so both the JSON
lookup pkg.dependencies?.X of api/index.js and the grep for the quoted
dependency name in the shell scripts observe it. -/
structure Manifest where
  hasNext : Bool
  hasVue : Bool
  hasReact : Bool
  hasReactScripts : Bool
  hasVite : Bool
deriving DecidableEq

/-- Package-manager detection of api/index.js lines 55-59: yarn.lock
wins, else pnpm-lock.yaml, else npm. -/
def apiPM (yarnLock pnpmLock : Bool) : String :=
  if yarnLock then "yarn" else if pnpmLock then "pnpm" else "npm"

/-- Package-manager detection of build_deploy.sh lines 18-20: three
sequential assignments, so a later match overwrites an earlier one. -/
def shellPM (yarnLock pnpmLock : Bool) : String :=
  let pm := "npm"
  let pm := if yarnLock then "yarn" else pm
  let pm := if pnpmLock then "pnpm" else pm
  pm

/-- Framework detection of build_deploy.sh lines 29-32: four sequential
non-exclusive if statements, so the last matching pattern wins. -/
def shellFramework (m : Manifest) : String :=
  let fw := "unknown"
  let fw := if m.hasNext then "next" else fw
  let fw := if m.hasReactScripts then "react-scripts" else fw
  let fw := if m.hasVite then "vite" else fw
  let fw := if m.hasVue then "vue" else fw
  fw

/-- Branch taken by the if/else chain of api/index.js lines 66-75. -/
inductive ApiFramework where
  | next
  | vue
  | react
  | fallback
deriving DecidableEq

/-- Framework branch selection of api/index.js lines 66-75: first
match of the else-if chain wins; no match keeps the defaults. -/
def apiFramework (m : Manifest) : ApiFramework :=
  if m.hasNext then ApiFramework.next
  else if m.hasVue then ApiFramework.vue
  else if m.hasReact then ApiFramework.react
  else ApiFramework.fallback

/-- Build command and output directory resolved by api/index.js. -/
structure BuildPlan where
  buildCmd : String
  outDir : String
deriving DecidableEq

/-- api/index.js lines 63-75: defaults buildCmd = npm run build and
outDir = dist, overridden by the matching framework branch. -/
def apiPlan (pm : String) (m : Manifest) (outFolderExists : Bool) : BuildPlan :=
  match apiFramework m with
  | ApiFramework.next =>
      { buildCmd := pm ++ " run build && " ++ pm ++ " run export || true",
        outDir := if outFolderExists then "out" else ".next" }
  | ApiFramework.vue => { buildCmd := pm ++ " run build", outDir := "dist" }
  | ApiFramework.react => { buildCmd := pm ++ " run build", outDir := "build" }
  | ApiFramework.fallback => { buildCmd := "npm run build", outDir := "dist" }

/-- Exit status execSync observes for the resolved build command: the
next branch appends || true to the command string, so the shell exit
status is 0 regardless of the underlying build/export exit status; the
other branches run the bare build command. -/
def observedBuildExit (fw : ApiFramework) (underlying : Nat) : Nat :=
  match fw with
  | ApiFramework.next => 0
  | _ => underlying

/-- Codemagic framework decision table, README.md lines 331-345:
elif chain, first match wins, returning framework name and DIST_FOLDER;
no match is a detection failure. -/
def cmDetect (m : Manifest) : Option (String × String) :=
  if m.hasNext then some ("Next.js", ".next")
  else if m.hasReact && m.hasReactScripts then some ("CRA-React", "build")
  else if m.hasReact && m.hasVite then some ("Vite-React", "dist")
  else if m.hasVue then some ("Vue.js", "dist")
  else none

/-- Zip step of build_deploy.sh lines 70-79: package whichever of
dist/out/.next exists, in that order; none present aborts. The build
exit status is not an input because the build line is
npm run build || true, whose exit status is always 0. -/
def shellZipTarget (distD outD nextD : Bool) : Option String :=
  if distD then some "dist" else if outD then some "out"
  else if nextD then some ".next" else none

/-- build_deploy.sh build script: set -e aborts on install failure
before any packaging (result none); otherwise the || true build line
runs and packaging proceeds by directory presence alone. -/
def shellBuildScript (installOk : Bool) (distD outD nextD : Bool) :
    Option (Option String) :=
  if !installOk then none
  else some (shellZipTarget distD outD nextD)

/-- The failure branches of the Codemagic workflow scripts, each
identified by the call site of send_failure_callback. -/
inductive CMFailure where
  | cloneFailed (url : String)
  | downloadFailed (url : String)
  | extractFailed
  | badUrl (url : String)
  | cdFailed
  | noPackageJson
  | installFailed
  | unsupportedFramework
  | buildCommandFailed (fw : String)
  | distFolderMissing (dist : String)
deriving DecidableEq

/-- The literal message each failure branch passes to
send_failure_callback in README.md. -/
def CMFailure.message : CMFailure → String
  | CMFailure.cloneFailed url =>
      "Failed to clone Git repository from " ++ url ++ "."
  | CMFailure.downloadFailed url =>
      "Failed to download zip file from " ++ url ++ "."
  | CMFailure.extractFailed => "Failed to extract zip file."
  | CMFailure.badUrl url =>
      "Source URL " ++ url ++ " is neither a Git repository nor a Zip file."
  | CMFailure.cdFailed => "Failed to navigate into source directory."
  | CMFailure.noPackageJson =>
      "Could not find package.json in the source code root. Cannot determine framework."
  | CMFailure.installFailed => "npm install failed. Check project dependencies."
  | CMFailure.unsupportedFramework =>
      "Unsupported framework detected. Only Next.js, React, and Vue.js are supported."
  | CMFailure.buildCommandFailed fw =>
      "Build command failed for " ++ fw ++ " project (npm run build)."
  | CMFailure.distFolderMissing dist =>
      "Build succeeded, but the expected distribution folder (" ++ dist ++ ") was not found."

/-- Environment of one Codemagic job: inputs plus the outcome of every
external action the scripts perform. distExists reports which
directories exist after the build ran. -/
structure CMEnv where
  url : String
  clientId : String
  buildId : String
  appId : String
  cloneOk : Bool
  transportOk : Bool
  httpOk : Bool
  remoteIsZip : Bool
  cdOk : Bool
  hasPackageJson : Bool
  manifest : Manifest
  installOk : Bool
  buildOk : Bool
  distExists : String → Bool
  zipOk : Bool

/-- curl -L -o source.zip is run without --fail, so its exit status
reflects transport success only: an HTTP error response (such as 404)
still exits 0 and saves the error body to source.zip. -/
def cmCurlOk (e : CMEnv) : Bool := e.transportOk

/-- unzip -q source.zip succeeds iff the saved bytes form a zip
archive: the transfer completed, the response was not an HTTP error
page, and the remote content was a zip. -/
def cmUnzipOk (e : CMEnv) : Bool := e.transportOk && e.httpOk && e.remoteIsZip

/-- Codemagic step 1 (fetch source), README.md lines 270-309: bash
pattern matches on the URL, then clone or download+unzip, then cd. -/
def cmStep1 (e : CMEnv) : Option CMFailure :=
  if strContains e.url (".git") then
    if !e.cloneOk then some (CMFailure.cloneFailed e.url)
    else if !e.cdOk then some CMFailure.cdFailed
    else none
  else if strContains e.url (".zip") then
    if !(cmCurlOk e) then some (CMFailure.downloadFailed e.url)
    else if !(cmUnzipOk e) then some CMFailure.extractFailed
    else if !e.cdOk then some CMFailure.cdFailed
    else none
  else some (CMFailure.badUrl e.url)

/-- Codemagic step 2 (detect and build), README.md lines 313-362:
package.json check, npm install, decision table, npm run build, then
the DIST_FOLDER existence check. -/
def cmStep2 (e : CMEnv) : Option CMFailure :=
  if !e.hasPackageJson then some CMFailure.noPackageJson
  else if !e.installOk then some CMFailure.installFailed
  else
    match cmDetect e.manifest with
    | none => some CMFailure.unsupportedFramework
    | some (fw, dist) =>
        if !e.buildOk then some (CMFailure.buildCommandFailed fw)
        else if !(e.distExists dist) then some (CMFailure.distFolderMissing dist)
        else none

/-- The callback wire payload of README.md section 3. -/
structure Payload where
  build_id : String
  client_id : String
  output_url : String
  status : String
  message : String
deriving DecidableEq

/-- The CM_ARTIFACT_URL string exported by the setup script. -/
def CM_ARTIFACT_URL (appId buildId : String) : String :=
  "[https://app.codemagic.io/app/" ++ appId ++ "/build/" ++ buildId ++
    "/artifacts](https://app.codemagic.io/app/" ++ appId ++ "/build/" ++
    buildId ++ "/artifacts)"

/-- JSON payload constructed by send_callback via jq. -/
def send_callback_payload (buildId clientId status message outputUrl : String) :
    Payload :=
  { build_id := buildId, client_id := clientId, output_url := outputUrl,
    status := status, message := message }

/-- send_failure_callback: status failed, third argument the empty
string. -/
def send_failure_callback_payload (e : CMEnv) (msg : String) : Payload :=
  send_callback_payload e.buildId e.clientId ("failed") msg ("")

/-- The single success call site in publishing step 3. -/
def cm_success_payload (e : CMEnv) : Payload :=
  send_callback_payload e.buildId e.clientId ("success")
    ("Build completed, artifact successfully published.")
    (CM_ARTIFACT_URL e.appId e.buildId)

/-- Terminal notification payload of one Codemagic job, if any: the
first failing step sends the failure payload and stops; after both
steps pass, the publishing step sends the success payload unless its
zip command fails, in which case it exits without any callback. -/
def cmPipeline (e : CMEnv) : Option Payload :=
  match cmStep1 e with
  | some f => some (send_failure_callback_payload e f.message)
  | none =>
      match cmStep2 e with
      | some f => some (send_failure_callback_payload e f.message)
      | none =>
          if e.zipOk then some (cm_success_payload e) else none

/-- MAX_RETRIES of send_callback. -/
def MAX_RETRIES : Nat := 5

/-- Initial DELAY of send_callback. -/
def INITIAL_DELAY : Nat := 2

/-- The retry loop of send_callback: attempt i, r attempts remaining,
current delay d. Returns attempts made, the list of sleeps performed,
and whether a curl attempt succeeded. On failure the script sleeps d
and doubles the delay, including after the final attempt. -/
def sendCallbackGo (f : Nat → Bool) : Nat → Nat → Nat → Nat × List Nat × Bool
  | _, 0, _ => (0, [], false)
  | i, r + 1, d =>
    if f i then (1, [], true)
    else
      let rest := sendCallbackGo f (i + 1) r (d * 2)
      (rest.1 + 1, d :: rest.2.1, rest.2.2)

/-- send_callback delivery loop with curl outcome f per attempt. -/
def send_callback (f : Nat → Bool) : Nat × List Nat × Bool :=
  sendCallbackGo f 1 MAX_RETRIES INITIAL_DELAY

/-- A directory entry: name, whether it is a directory, children. -/
inductive FsTree where
  | mk (name : String) (isDir : Bool) (children : List FsTree)

/-- Whether the entry is a directory. -/
def FsTree.isDir : FsTree → Bool
  | FsTree.mk _ d _ => d

/-- The entries inside the entry. -/
def FsTree.children : FsTree → List FsTree
  | FsTree.mk _ _ cs => cs

/-- How the source was acquired. -/
inductive AcqMethod where
  | git
  | zip
deriving DecidableEq

/-- Workspace contents right after acquisition, api/index.js lines
30-45: a clone materializes the content directly; the zip path first
writes source.zip into the workspace and then extracts next to it. -/
def apiPostAcquireEntries (m : AcqMethod) (content : List FsTree) : List FsTree :=
  match m with
  | AcqMethod.git => content
  | AcqMethod.zip => FsTree.mk ("source.zip") false [] :: content

/-- Root-folder normalization of api/index.js lines 47-52: when the
workspace holds exactly one entry and it is a directory, that
directory becomes the project root; detection then reads its
children. -/
def apiProjectEntries (entries : List FsTree) : List FsTree :=
  match entries with
  | [t] => if t.isDir then t.children else [t]
  | es => es

/-- Entries the detection stage sees, for a given acquisition method
and acquired content. -/
def apiDetectionRoot (m : AcqMethod) (content : List FsTree) : List FsTree :=
  apiProjectEntries (apiPostAcquireEntries m content)

/-- Flattening step of the Codemagic fetch script, README.md lines
303-309: when the source directory holds exactly one subdirectory, its
contents are moved up and the wrapper removed; other files stay. -/
def cmFlatten (entries : List FsTree) : List FsTree :=
  match entries.filter (fun t => t.isDir) with
  | [d] => d.children ++ entries.filter (fun t => !t.isDir)
  | _ => entries

/-- Side effects the POST /build handler performs, in order. -/
inductive Effect where
  | mkdirWorkspace
  | gitClone
  | fetchZip
  | extractZip
  | runInstall (cmd : String)
  | runBuild (cmd : String)
  | zipOutput (dir : String)
  | uploadArtifact
  | signUrl
deriving DecidableEq

/-- Which throw site produced the 500 response of the catch block. -/
inductive ApiErr where
  | cloneFailed
  | fetchRejected
  | zipFormat
  | manifestMissing
  | installFailed
  | buildFailed
  | outputDirMissing
  | uploadFailed
deriving DecidableEq

/-- Response of the POST /build handler. -/
inductive ApiResponse where
  | badRequest (msg : String)
  | serverError (e : ApiErr)
  | ok (artifact url : String)
deriving DecidableEq

/-- Request body fields of POST /build. -/
structure ApiRequest where
  source_url : Option String
  branch : Option String
  client_id : Option String

/-- JS truthiness of an optional string field: absent and empty are
both falsy. -/
def truthy : Option String → Bool
  | none => false
  | some s => !(s == "")

/-- Outcomes of the external actions the handler performs. -/
structure ApiWorld where
  cloneOk : Bool
  fetchTransportOk : Bool
  httpOk : Bool
  remoteIsZip : Bool
  yarnLock : Bool
  pnpmLock : Bool
  manifest : Option Manifest
  outFolderExists : Bool
  installExit : Nat
  buildUnderlyingExit : Nat
  outputDirExists : Bool
  uploadOk : Bool
  signedUrl : String

/-- api/index.js lines 54-107: package-manager detection, manifest
read (readFileSync throws when package.json is absent), framework
branch, install, build, zip (addLocalFolder throws when the output
directory is absent), upload, signed URL. -/
def apiAfterAcquire (w : ApiWorld) (clientId : String) (tr : List Effect) :
    ApiResponse × List Effect :=
  let pm := apiPM w.yarnLock w.pnpmLock
  match w.manifest with
  | none => (ApiResponse.serverError ApiErr.manifestMissing, tr)
  | some m =>
      let plan := apiPlan pm m w.outFolderExists
      let tr := tr ++ [Effect.runInstall (pm ++ " install")]
      if w.installExit ≠ 0 then (ApiResponse.serverError ApiErr.installFailed, tr)
      else
        let tr := tr ++ [Effect.runBuild plan.buildCmd]
        if observedBuildExit (apiFramework m) w.buildUnderlyingExit ≠ 0 then
          (ApiResponse.serverError ApiErr.buildFailed, tr)
        else
          let tr := tr ++ [Effect.zipOutput plan.outDir]
          if !w.outputDirExists then
            (ApiResponse.serverError ApiErr.outputDirMissing, tr)
          else
            let tr := tr ++ [Effect.uploadArtifact]
            if !w.uploadOk then (ApiResponse.serverError ApiErr.uploadFailed, tr)
            else
              (ApiResponse.ok ("despia_builder_" ++ clientId ++ ".zip") w.signedUrl,
                tr ++ [Effect.signUrl])

/-- POST /build handler, api/index.js lines 17-112: field validation
before any filesystem effect, then mkdir, then acquisition by URL
suffix, then the build pipeline. The effect trace records every
external action performed. -/
def apiBuildHandler (w : ApiWorld) (req : ApiRequest) :
    ApiResponse × List Effect :=
  if !(truthy req.source_url) || !(truthy req.client_id) then
    (ApiResponse.badRequest ("source_url and client_id are required"), [])
  else
    let url := req.source_url.getD ("")
    let clientId := req.client_id.getD ("")
    let tr : List Effect := [Effect.mkdirWorkspace]
    if strEndsWith url (".git") then
      let tr := tr ++ [Effect.gitClone]
      if !w.cloneOk then (ApiResponse.serverError ApiErr.cloneFailed, tr)
      else apiAfterAcquire w clientId tr
    else if strEndsWith url (".zip") then
      let tr := tr ++ [Effect.fetchZip]
      if !w.fetchTransportOk then (ApiResponse.serverError ApiErr.fetchRejected, tr)
      else
        let tr := tr ++ [Effect.extractZip]
        if !(w.httpOk && w.remoteIsZip) then
          (ApiResponse.serverError ApiErr.zipFormat, tr)
        else apiAfterAcquire w clientId tr
    else (ApiResponse.badRequest ("Unsupported source type. Must be .git or .zip"), tr)

/-- Manifest declaring no recognized framework dependency. -/

def mNone : Manifest :=
  { hasNext := false, hasVue := false, hasReact := false,
    hasReactScripts := false, hasVite := false }

/-- Manifest declaring both the next and the vue dependency. -/

def mNextVue : Manifest :=
  { hasNext := true, hasVue := true, hasReact := false,
    hasReactScripts := false, hasVite := false }

/-- Manifest of a CRA project: react plus react-scripts. -/

def mCRA : Manifest :=
  { hasNext := false, hasVue := false, hasReact := true,
    hasReactScripts := true, hasVite := false }

/-- Manifest declaring the next dependency. -/

def mNext : Manifest :=
  { hasNext := true, hasVue := false, hasReact := false,
    hasReactScripts := false, hasVite := false }

/-- Codemagic environment whose source URL is neither git nor zip. -/

def eBadUrl : CMEnv :=
  { url := "https://x/a.tar", clientId := "c1", buildId := "b1", appId := "a1",
    cloneOk := true, transportOk := true, httpOk := true, remoteIsZip := true,
    cdOk := true, hasPackageJson := true, manifest := mNone, installOk := true,
    buildOk := true, distExists := fun _ => true, zipOk := true }

/-- The failure payload the workflow sends for eBadUrl. -/

def pBadUrl : Payload :=
  { build_id := "b1", client_id := "c1", output_url := "", status := "failed",
    message := "Source URL https://x/a.tar is neither a Git repository nor a Zip file." }

/-- Codemagic environment for a zip URL whose download gets an HTTP error response: the transfer itself succeeds, the remote file is a zip, but the saved body is the error page. -/

def e404 : CMEnv :=
  { url := "https://x/a.zip", clientId := "c1", buildId := "b1", appId := "a1",
    cloneOk := true, transportOk := true, httpOk := false, remoteIsZip := true,
    cdOk := true, hasPackageJson := true, manifest := mNone, installOk := true,
    buildOk := true, distExists := fun _ => true, zipOk := true }

/-- Codemagic environment where the build command exits zero but the expected distribution folder is absent afterwards. -/

def eDistMissing : CMEnv :=
  { url := "https://x/repo.git", clientId := "c1", buildId := "b1", appId := "a1",
    cloneOk := true, transportOk := true, httpOk := true, remoteIsZip := true,
    cdOk := true, hasPackageJson := true, manifest := mCRA, installOk := true,
    buildOk := true, distExists := fun _ => false, zipOk := true }

/-- Codemagic environment with a git URL and a manifest matching no decision-table entry. -/

def eNoFw : CMEnv :=
  { eBadUrl with url := "https://x/repo.git" }

/-- Handler world in which every external action succeeds. -/

def wAllOk : ApiWorld :=
  { cloneOk := true, fetchTransportOk := true, httpOk := true, remoteIsZip := true,
    yarnLock := false, pnpmLock := false, manifest := some mNone,
    outFolderExists := false, installExit := 0, buildUnderlyingExit := 0,
    outputDirExists := true, uploadOk := true, signedUrl := "https://signed" }

/-- Handler world where the expected output directory is absent after a zero-exit build. -/

def wNoOut : ApiWorld :=
  { wAllOk with outputDirExists := false }

/-- Handler world whose manifest declares no recognized framework dependency. -/

def wNoFw : ApiWorld :=
  { wAllOk with manifest := some mNone }

/-- Handler world for a next project whose underlying build command exits 1. -/

def wNextBuildFails : ApiWorld :=
  { wAllOk with manifest := some mNext, buildUnderlyingExit := 1 }

/-- Valid request with a git source URL. -/

def reqGit : ApiRequest :=
  { source_url := some ("https://x/repo.git"), branch := none,
    client_id := some ("c1") }

/-- Request missing the client_id field. -/

def reqNoClient : ApiRequest :=
  { source_url := some ("https://x/repo.git"), branch := none, client_id := none }

/-- A package.json file entry. -/

def pkgEntry : FsTree := FsTree.mk ("package.json") false []

/-- A single wrapping directory holding the manifest. -/

def wrapDir : FsTree := FsTree.mk ("app") true [pkgEntry]

/-- Appending to a nonempty string stays nonempty. -/

theorem str_append_ne_empty (a b : String) (h : a ≠ "") : a ++ b ≠ "" := by
  intro hc
  have hd := congrArg String.data hc
  simp only [String.data_append] at hd
  rcases List.append_eq_nil.mp hd with ⟨h3, _⟩
  apply h
  cases a with
  | mk da => simp only [String.data] at h3; simp [h3]

/-- The exported artifact URL is never the empty string. -/

theorem cm_artifact_url_ne_empty (a b : String) : CM_ARTIFACT_URL a b ≠ "" := by
  unfold CM_ARTIFACT_URL
  exact str_append_ne_empty _ _ (str_append_ne_empty _ _ (str_append_ne_empty _ _
    (str_append_ne_empty _ _ (str_append_ne_empty _ _ (str_append_ne_empty _ _
      (str_append_ne_empty _ _ (str_append_ne_empty _ _ (by decide))))))))

/-- The retry loop makes at most r attempts. -/

theorem sendCallbackGo_fst_le (f : Nat → Bool) (r : Nat) :
    ∀ i d, (sendCallbackGo f i r d).1 ≤ r := by
  induction r with
  | zero => intro i d; simp [sendCallbackGo]
  | succ n ih =>
      intro i d
      simp only [sendCallbackGo]
      by_cases hf : f i
      · simp [hf]
      · simp only [hf, if_false, Bool.false_eq_true]
        have := ih (i + 1) (d * 2)
        omega

/-- The j-th sleep of the retry loop is d times 2 to the j. -/

theorem sendCallbackGo_delays (f : Nat → Bool) (r : Nat) :
    ∀ i d j, j < (sendCallbackGo f i r d).2.1.length →
      (sendCallbackGo f i r d).2.1.get? j = some (d * 2 ^ j) := by
  induction r with
  | zero => intro i d j hj; simp [sendCallbackGo] at hj
  | succ n ih =>
      intro i d j hj
      simp only [sendCallbackGo] at hj ⊢
      by_cases hf : f i
      · simp [hf] at hj
      · simp only [hf, if_false, Bool.false_eq_true] at hj ⊢
        cases j with
        | zero => simp
        | succ k =>
            simp only [List.length_cons, Nat.succ_lt_succ_iff] at hj
            have := ih (i + 1) (d * 2) k hj
            simp only [List.get?_cons_succ, this, pow_succ]
            ring_nf

/-- When the first successful attempt is attempt k, the loop stops there with delivery true. -/

theorem sendCallbackGo_first_success (f : Nat → Bool) (r : Nat) :
    ∀ i d k, i ≤ k → k < i + r → (∀ j, i ≤ j → j < k → f j = false) →
      f k = true →
      (sendCallbackGo f i r d).1 = k + 1 - i ∧
        (sendCallbackGo f i r d).2.2 = true := by
  induction r with
  | zero => intro i d k h1 h2 _ _; omega
  | succ n ih =>
      intro i d k h1 h2 hprev hk
      simp only [sendCallbackGo]
      by_cases hf : f i
      · have hki : k = i := by
          by_contra hne
          have hik : i < k := lt_of_le_of_ne h1 (Ne.symm hne)
          have hfi := hprev i le_rfl hik
          rw [hf] at hfi
          exact absurd hfi (by simp)
        subst hki
        constructor
        · simp [hf]
        · simp [hf]
      · have hik : i < k := by
          rcases lt_or_eq_of_le h1 with h | h
          · exact h
          · rw [← h] at hk
            exact absurd hk hf
        have ihr := ih (i + 1) (d * 2) k (by omega) (by omega)
          (fun j hj1 hj2 => hprev j (by omega) hj2) hk
        constructor
        · simp only [hf, if_false, Bool.false_eq_true]
          omega
        · simp only [hf, if_false, Bool.false_eq_true]
          exact ihr.2

/-- Every terminal payload is either a failure payload of some branch or the success payload after both steps passed. -/

theorem cmPipeline_cases (e : CMEnv) (p : Payload) (h : cmPipeline e = some p) :
    (∃ f : CMFailure, p = send_failure_callback_payload e f.message) ∨
    (cmStep1 e = none ∧ cmStep2 e = none ∧ e.zipOk = true ∧ p = cm_success_payload e) := by
  unfold cmPipeline at h
  cases h1 : cmStep1 e with
  | some f =>
      rw [h1] at h
      simp only [Option.some.injEq] at h
      exact Or.inl ⟨f, h.symm⟩
  | none =>
      rw [h1] at h
      cases h2 : cmStep2 e with
      | some f =>
          rw [h2] at h
          simp only [Option.some.injEq] at h
          exact Or.inl ⟨f, h.symm⟩
      | none =>
          rw [h2] at h
          cases h3 : e.zipOk
          · rw [h3] at h
            simp at h
          · rw [h3] at h
            simp only [if_true, Option.some.injEq] at h
            exact Or.inr ⟨rfl, rfl, rfl, h.symm⟩

/-- Step 2 cannot pass when the build command failed. -/

theorem cmStep2_isSome_of_build_fail (e : CMEnv) (hb : e.buildOk = false) :
    cmStep2 e ≠ none := by
  unfold cmStep2
  cases hp : e.hasPackageJson
  · simp [hp]
  · cases hi : e.installOk
    · simp [hp, hi]
    · cases hd : cmDetect e.manifest with
      | none => simp [hp, hi, hd]
      | some pr =>
          cases pr with
          | mk fw dist => simp [hp, hi, hd, hb]

/-- With the output directory absent the post-acquisition pipeline never answers ok. -/

theorem apiAfterAcquire_no_ok_of_missing_outdir (w : ApiWorld) (c : String)
    (tr : List Effect) (hw : w.outputDirExists = false) (a u : String) :
    (apiAfterAcquire w c tr).1 ≠ ApiResponse.ok a u := by
  unfold apiAfterAcquire
  cases w.manifest with
  | none => simp
  | some m =>
      simp only
      split
      · simp
      · split
        · simp
        · simp [hw]

/-- With the output directory absent the handler never answers ok. -/

theorem apiBuildHandler_no_ok_of_missing_outdir (w : ApiWorld) (req : ApiRequest)
    (hw : w.outputDirExists = false) (a u : String) :
    (apiBuildHandler w req).1 ≠ ApiResponse.ok a u := by
  unfold apiBuildHandler
  cases h1 : (!truthy req.source_url || !truthy req.client_id)
  · simp only [h1, Bool.false_eq_true, if_false]
    cases h2 : strEndsWith (req.source_url.getD ("")) (".git")
    · simp only [h2, Bool.false_eq_true, if_false]
      cases h3 : strEndsWith (req.source_url.getD ("")) (".zip")
      · simp [h3]
      · simp only [h3, if_true]
        cases h4 : w.fetchTransportOk
        · simp [h4]
        · simp only [h4, Bool.not_true, Bool.false_eq_true, if_false]
          cases h5 : (w.httpOk && w.remoteIsZip)
          · simp [h5]
          · simp only [h5, Bool.not_true, Bool.false_eq_true, if_false]
            exact apiAfterAcquire_no_ok_of_missing_outdir w _ _ hw a u
    · simp only [h2, if_true]
      cases h6 : w.cloneOk
      · simp [h6]
      · simp only [h6, Bool.not_true, Bool.false_eq_true, if_false]
        exact apiAfterAcquire_no_ok_of_missing_outdir w _ _ hw a u
  · simp [h1]

/-- A failing install short-circuits before the zip step. -/

theorem apiAfterAcquire_no_zip_of_install_fail (w : ApiWorld) (c : String)
    (tr : List Effect) (hinst : w.installExit ≠ 0) (d : String)
    (htr : Effect.zipOutput d ∉ tr) :
    Effect.zipOutput d ∉ (apiAfterAcquire w c tr).2 := by
  unfold apiAfterAcquire
  cases w.manifest with
  | none => simpa using htr
  | some m => simp [hinst, htr]

/-- Outside the next branch the observed exit is the underlying exit. -/

theorem observedBuildExit_eq_of_ne_next (fw : ApiFramework)
    (h : fw ≠ ApiFramework.next) (n : Nat) : observedBuildExit fw n = n := by
  cases fw
  · exact absurd rfl h
  · rfl
  · rfl
  · rfl

/-- Outside the next branch a failing build short-circuits before the zip step. -/

theorem apiAfterAcquire_no_zip_of_build_fail (w : ApiWorld) (c : String)
    (tr : List Effect) (m : Manifest) (hm : w.manifest = some m)
    (hfw : apiFramework m ≠ ApiFramework.next)
    (hb : w.buildUnderlyingExit ≠ 0) (d : String)
    (htr : Effect.zipOutput d ∉ tr) :
    Effect.zipOutput d ∉ (apiAfterAcquire w c tr).2 := by
  unfold apiAfterAcquire
  rw [hm]
  have hobs : observedBuildExit (apiFramework m) w.buildUnderlyingExit =
      w.buildUnderlyingExit := observedBuildExit_eq_of_ne_next _ hfw _
  by_cases hi : w.installExit ≠ 0
  · simp [hi, htr]
  · simp [hi, hobs, hb, htr]

/-- The handler trace has no zip effect when the post-acquisition pipeline adds none. -/

theorem apiBuildHandler_no_zip_mem (w : ApiWorld) (req : ApiRequest) (d : String)
    (H : ∀ c tr, Effect.zipOutput d ∉ tr →
      Effect.zipOutput d ∉ (apiAfterAcquire w c tr).2) :
    Effect.zipOutput d ∉ (apiBuildHandler w req).2 := by
  unfold apiBuildHandler
  cases h1 : (!truthy req.source_url || !truthy req.client_id)
  · simp only [h1, Bool.false_eq_true, if_false]
    cases h2 : strEndsWith (req.source_url.getD ("")) (".git")
    · simp only [h2, Bool.false_eq_true, if_false]
      cases h3 : strEndsWith (req.source_url.getD ("")) (".zip")
      · simp [h3]
      · simp only [h3, if_true]
        cases h4 : w.fetchTransportOk
        · simp [h4]
        · simp only [h4, Bool.not_true, Bool.false_eq_true, if_false]
          cases h5 : (w.httpOk && w.remoteIsZip)
          · simp [h5]
          · simp only [h5, Bool.not_true, Bool.false_eq_true, if_false]
            exact H _ _ (by simp)
    · simp only [h2, if_true]
      cases h6 : w.cloneOk
      · simp [h6]
      · simp only [h6, Bool.not_true, Bool.false_eq_true, if_false]
        exact H _ _ (by simp)
  · simp [h1]

/-- Claim C1: every terminal notification payload satisfies the mutual-determination invariant: a failed status always carries the empty output_url, and a success status always carries the nonempty artifact reference URL. -/

theorem cm_terminal_payload_invariant (e : CMEnv) (p : Payload)
    (h : cmPipeline e = some p) :
    (p.status = "failed" ∧ p.output_url = "") ∨
    (p.status = "success" ∧ p.output_url = CM_ARTIFACT_URL e.appId e.buildId ∧
      p.output_url ≠ "") := by
  unfold cmPipeline at h
  cases h1 : cmStep1 e with
  | some f =>
      rw [h1] at h
      simp only [Option.some.injEq] at h
      left
      rw [← h]
      exact ⟨rfl, rfl⟩
  | none =>
      rw [h1] at h
      cases h2 : cmStep2 e with
      | some f =>
          rw [h2] at h
          simp only [Option.some.injEq] at h
          left
          rw [← h]
          exact ⟨rfl, rfl⟩
      | none =>
          rw [h2] at h
          by_cases hz : e.zipOk
          · simp only [hz, if_true, Option.some.injEq] at h
            right
            rw [← h]
            exact ⟨rfl, rfl, cm_artifact_url_ne_empty _ _⟩
          · simp [hz] at h

/-- Witness for claim C1 at a concrete failing job. -/

theorem cm_terminal_payload_invariant_witness :
    (pBadUrl.status = "failed" ∧ pBadUrl.output_url = "") ∨
    (pBadUrl.status = "success" ∧
      pBadUrl.output_url = CM_ARTIFACT_URL eBadUrl.appId eBadUrl.buildId ∧
      pBadUrl.output_url ≠ "") :=
  cm_terminal_payload_invariant eBadUrl pBadUrl (by decide)

/-- Counterexample to claim C2: the detect script of build_deploy.sh resolves pnpm, not yarn, when both lockfiles are present, because its pnpm check runs last and overwrites the yarn result. -/

theorem pm_both_lockfiles_resolve_pnpm :
    shellPM true true = "pnpm" ∧ shellPM true true ≠ "yarn" := by decide

/-- Claim C2 amended: the API handler resolves the package manager in the priority order yarn, then pnpm, then npm; the shell detect script checks pnpm last so a pnpm lockfile overrides a yarn lockfile, and the two functions agree exactly when at most one lockfile is present. -/

theorem pm_detection_priority_amended :
    (∀ p, apiPM true p = "yarn") ∧ apiPM false true = "pnpm" ∧
    apiPM false false = "npm" ∧ shellPM true true = "pnpm" ∧
    (∀ y p, ¬(y = true ∧ p = true) → shellPM y p = apiPM y p) := by decide

/-- Witness for the amended claim C2 at a concrete lockfile combination. -/

theorem pm_detection_priority_amended_witness :
    ¬(true = true ∧ false = true) ∧ shellPM true false = apiPM true false :=
  ⟨by decide, pm_detection_priority_amended.2.2.2.2 true false (by decide)⟩

/-- Counterexample to claim C3: the detect script of build_deploy.sh resolves a manifest declaring both next and vue to vue, because its sequential if statements let the last match win. -/

theorem shell_detect_next_vue_resolves_vue :
    shellFramework mNextVue = "vue" ∧ shellFramework mNextVue ≠ "next" := by decide

/-- Claim C3 amended: the API handler and the Codemagic decision table resolve any manifest declaring next to the next framework, first match winning; the shell detect script instead lets the last matching pattern win and resolves a next-plus-vue manifest to vue. -/

theorem framework_priority_amended :
    (∀ m : Manifest, m.hasNext = true → apiFramework m = ApiFramework.next) ∧
    (∀ m : Manifest, m.hasNext = true → cmDetect m = some ("Next.js", ".next")) ∧
    shellFramework mNextVue = "vue" := by
  refine ⟨?_, ?_, by decide⟩
  · intro m h
    simp [apiFramework, h]
  · intro m h
    simp [cmDetect, h]

/-- Witness for the amended claim C3 at the next-plus-vue manifest. -/

theorem framework_priority_amended_witness :
    mNextVue.hasNext = true ∧ apiFramework mNextVue = ApiFramework.next :=
  ⟨by decide, framework_priority_amended.1 mNextVue (by decide)⟩

/-- Counterexample to claim C4: the API handler, given a manifest matching no decision-table entry, falls back to the defaults and invokes the build command, completing with success instead of failing with an unsupported-framework error. -/

theorem api_unmatched_manifest_runs_build :
    cmDetect mNone = none ∧
    Effect.runBuild ("npm run build") ∈ (apiBuildHandler wNoFw reqGit).2 ∧
    (apiBuildHandler wNoFw reqGit).1 =
      ApiResponse.ok ("despia_builder_c1.zip") ("https://signed") := by decide

/-- Claim C4 amended: the Codemagic workflow fails an unmatched manifest with the unsupported-framework error before running the build, independently of the build result; the API handler instead falls back to the default build command npm run build and does invoke it. -/

theorem unmatched_manifest_behavior (e : CMEnv)
    (h1 : e.hasPackageJson = true) (h2 : e.installOk = true)
    (hdet : cmDetect e.manifest = none)
    (w : ApiWorld) (req : ApiRequest) (m : Manifest) (url : String)
    (hm : w.manifest = some m) (hfw : apiFramework m = ApiFramework.fallback)
    (hurl : req.source_url = some url) (hgit : strEndsWith url (".git") = true)
    (hu : truthy req.source_url = true) (hcid : truthy req.client_id = true)
    (hclone : w.cloneOk = true) (hinst : w.installExit = 0) :
    cmStep2 e = some CMFailure.unsupportedFramework ∧
    (∀ b : Bool, cmStep2 ({ e with buildOk := b }) =
      some CMFailure.unsupportedFramework) ∧
    Effect.runBuild ("npm run build") ∈ (apiBuildHandler w req).2 := by
  refine ⟨?_, ?_, ?_⟩
  · simp [cmStep2, h1, h2, hdet]
  · intro b
    simp [cmStep2, h1, h2, hdet]
  · unfold apiBuildHandler
    simp only [hu, hcid, Bool.not_true, Bool.or_self, Bool.false_eq_true, if_false,
      hurl, Option.getD_some, hgit, if_true, hclone, Bool.not_true]
    unfold apiAfterAcquire
    rw [hm]
    simp only [apiPlan, hfw, hinst]
    have hu2 : truthy (some url) = true := by rw [← hurl]; exact hu
    simp [hu2]
    split
    · split
      · simp
      · split <;> simp
    · simp

/-- Witness for the amended claim C4 at concrete environments. -/

theorem unmatched_manifest_behavior_witness :
    cmStep2 eNoFw = some CMFailure.unsupportedFramework ∧
    (∀ b : Bool, cmStep2 ({ eNoFw with buildOk := b }) =
      some CMFailure.unsupportedFramework) ∧
    Effect.runBuild ("npm run build") ∈ (apiBuildHandler wNoFw reqGit).2 :=
  unmatched_manifest_behavior eNoFw (by decide) (by decide) (by decide)
    wNoFw reqGit mNone ("https://x/repo.git") (by decide) (by decide) rfl
    (by decide) (by decide) (by decide) (by decide) (by decide)

/-- Claim C5: a job whose build command exits zero but whose expected distribution folder is absent afterwards is reported as a failure with a dedicated message distinct from the nonzero-exit build failure, and is never reported as success; the API handler likewise never answers ok when the output directory is absent. -/

theorem zero_exit_missing_outdir_reported_failure (e : CMEnv) (fw dist : String)
    (h1 : e.hasPackageJson = true) (h2 : e.installOk = true)
    (h3 : cmDetect e.manifest = some (fw, dist))
    (h4 : e.buildOk = true) (h5 : e.distExists dist = false)
    (w : ApiWorld) (hw : w.outputDirExists = false) :
    cmStep2 e = some (CMFailure.distFolderMissing dist) ∧
    (∀ g, CMFailure.distFolderMissing dist ≠ CMFailure.buildCommandFailed g) ∧
    (∀ p, cmPipeline e = some p → p.status = "failed") ∧
    (∀ req a u, (apiBuildHandler w req).1 ≠ ApiResponse.ok a u) := by
  have hs2 : cmStep2 e = some (CMFailure.distFolderMissing dist) := by
    unfold cmStep2
    rw [h1, h2, h3]
    simp [h4, h5]
  refine ⟨hs2, ?_, ?_, ?_⟩
  · intro g
    simp
  · intro p hp
    rcases cmPipeline_cases e p hp with ⟨f, rfl⟩ | ⟨hc1, hc2, hz, rfl⟩
    · rfl
    · rw [hs2] at hc2
      exact absurd hc2 (by simp)
  · intro req a u
    exact apiBuildHandler_no_ok_of_missing_outdir w req hw a u

/-- Witness for claim C5 at a concrete CRA job whose build folder is missing. -/

theorem zero_exit_missing_outdir_reported_failure_witness :
    cmStep2 eDistMissing = some (CMFailure.distFolderMissing ("build")) ∧
    (∀ g, CMFailure.distFolderMissing ("build") ≠ CMFailure.buildCommandFailed g) ∧
    (∀ p, cmPipeline eDistMissing = some p → p.status = "failed") ∧
    (∀ req a u, (apiBuildHandler wNoOut req).1 ≠ ApiResponse.ok a u) :=
  zero_exit_missing_outdir_reported_failure eDistMissing ("CRA-React") ("build")
    (by decide) (by decide) (by decide) (by decide) (by decide) wNoOut (by decide)

/-- Counterexample to claim C6: for a next project the build command string ends in or-true, so a nonzero underlying build exit is masked and the job still reaches the packaging step, here even completing with success. -/

theorem failed_next_build_reaches_packaging :
    wNextBuildFails.buildUnderlyingExit ≠ 0 ∧
    Effect.zipOutput (".next") ∈ (apiBuildHandler wNextBuildFails reqGit).2 ∧
    (apiBuildHandler wNextBuildFails reqGit).1 =
      ApiResponse.ok ("despia_builder_c1.zip") ("https://signed") := by decide

/-- Claim C6 amended: a nonzero install exit never reaches packaging, and a nonzero build exit never reaches packaging except through the or-true wrapped build commands: the next branch of the API handler masks the exit entirely, and the build script of build_deploy.sh proceeds to packaging on directory presence alone; the Codemagic workflow always reports failure on a failed build. -/

theorem nonzero_exit_short_circuit_amended (w : ApiWorld) (req : ApiRequest) :
    (w.installExit ≠ 0 → ∀ d, Effect.zipOutput d ∉ (apiBuildHandler w req).2) ∧
    (∀ m, w.manifest = some m → apiFramework m ≠ ApiFramework.next →
      w.buildUnderlyingExit ≠ 0 →
      ∀ d, Effect.zipOutput d ∉ (apiBuildHandler w req).2) ∧
    (∀ e : CMEnv, e.buildOk = false → ∀ p, cmPipeline e = some p →
      p.status = "failed") ∧
    (∀ fw : ApiFramework, fw = ApiFramework.next →
      ∀ n, observedBuildExit fw n = 0) ∧
    (∀ o n, shellBuildScript true true o n = some (some ("dist"))) := by
  refine ⟨?_, ?_, ?_, ?_, ?_⟩
  · intro hinst d
    exact apiBuildHandler_no_zip_mem w req d
      (fun c tr htr => apiAfterAcquire_no_zip_of_install_fail w c tr hinst d htr)
  · intro m hm hfw hb d
    exact apiBuildHandler_no_zip_mem w req d
      (fun c tr htr => apiAfterAcquire_no_zip_of_build_fail w c tr m hm hfw hb d htr)
  · intro e hb p hp
    rcases cmPipeline_cases e p hp with ⟨f, rfl⟩ | ⟨hc1, hc2, hz, rfl⟩
    · rfl
    · exact absurd hc2 (cmStep2_isSome_of_build_fail e hb)
  · intro fw hfw n
    rw [hfw]
    rfl
  · intro o n
    rfl

/-- Witness for the amended claim C6 at a world with a failing install. -/

theorem nonzero_exit_short_circuit_amended_witness :
    wAllOk.installExit = 0 ∧
    ({ wAllOk with installExit := 1 } : ApiWorld).installExit ≠ 0 ∧
    (∀ d, Effect.zipOutput d ∉
      (apiBuildHandler ({ wAllOk with installExit := 1 }) reqGit).2) :=
  ⟨rfl, by decide,
    (nonzero_exit_short_circuit_amended ({ wAllOk with installExit := 1 }) reqGit).1
      (by decide)⟩

/-- Claim C7: the notifier makes at most MAX_RETRIES delivery attempts, the sleep before attempt n, stored at position n minus 2 of the sleep list, equals the initial delay times 2 to the n minus 2, and delivery stops at the first successful attempt. -/

theorem notifier_retry_policy (f : Nat → Bool) :
    (send_callback f).1 ≤ MAX_RETRIES ∧
    (∀ n, 2 ≤ n → n - 2 < (send_callback f).2.1.length →
      (send_callback f).2.1.get? (n - 2) = some (INITIAL_DELAY * 2 ^ (n - 2))) ∧
    (∀ k, 1 ≤ k → k ≤ MAX_RETRIES →
      (∀ j, 1 ≤ j → j < k → f j = false) → f k = true →
      (send_callback f).1 = k ∧ (send_callback f).2.2 = true) := by
  refine ⟨sendCallbackGo_fst_le f MAX_RETRIES 1 INITIAL_DELAY, ?_, ?_⟩
  · intro n h2 hlen
    exact sendCallbackGo_delays f MAX_RETRIES 1 INITIAL_DELAY (n - 2) hlen
  · intro k hk1 hk5 hprev hk
    have h := sendCallbackGo_first_success f MAX_RETRIES 1 INITIAL_DELAY k hk1
      (by unfold MAX_RETRIES at hk5 ⊢; omega) hprev hk
    unfold send_callback
    exact ⟨by omega, h.2⟩

/-- Witness for claim C7: with attempts 1 and 2 failing and attempt 3 succeeding, exactly 3 attempts are made, delivery is true, and the sleep before attempt 2 is the initial delay. -/

theorem notifier_retry_policy_witness :
    (1 : Nat) ≤ 3 ∧ (3 : Nat) ≤ MAX_RETRIES ∧
    (send_callback (fun k => decide (k = 3))).1 = 3 ∧
    (send_callback (fun k => decide (k = 3))).2.2 = true ∧
    (2 : Nat) ≤ 2 ∧ 2 - 2 < (send_callback (fun k => decide (k = 3))).2.1.length ∧
    (send_callback (fun k => decide (k = 3))).2.1.get? (2 - 2) =
      some (INITIAL_DELAY * 2 ^ (2 - 2)) := by
  have h := notifier_retry_policy (fun k => decide (k = 3))
  have h3 := h.2.2 3 (by decide) (by decide)
    (fun j h1 h2 => by interval_cases j <;> rfl) (by decide)
  have hd := h.2.1 2 (by decide) (by decide)
  exact ⟨by decide, by decide, h3.1, h3.2, by decide, by decide, hd⟩

/-- Claim C8: for either acquisition method, when the workspace holds exactly one entry and it is a directory, that directory becomes the project root seen by detection; the flattening rule is one function of the directory contents, independent of the acquisition method, and the Codemagic flatten step behaves the same on a lone wrapping directory. -/

theorem single_wrapper_flattening :
    (∀ m content n cs, apiPostAcquireEntries m content = [FsTree.mk n true cs] →
      apiDetectionRoot m content = cs) ∧
    (∀ m1 m2 c1 c2, apiPostAcquireEntries m1 c1 = apiPostAcquireEntries m2 c2 →
      apiDetectionRoot m1 c1 = apiDetectionRoot m2 c2) ∧
    (∀ n cs, cmFlatten [FsTree.mk n true cs] = cs) := by
  refine ⟨?_, ?_, ?_⟩
  · intro m content n cs h
    unfold apiDetectionRoot
    rw [h]
    simp [apiProjectEntries, FsTree.isDir, FsTree.children]
  · intro m1 m2 c1 c2 h
    unfold apiDetectionRoot
    rw [h]
  · intro n cs
    simp [cmFlatten, List.filter, FsTree.isDir, FsTree.children]

/-- Witness for claim C8 at a concrete wrapping directory. -/

theorem single_wrapper_flattening_witness :
    apiPostAcquireEntries AcqMethod.git [wrapDir] = [FsTree.mk ("app") true [pkgEntry]] ∧
    apiDetectionRoot AcqMethod.git [wrapDir] = [pkgEntry] :=
  ⟨rfl, single_wrapper_flattening.1 AcqMethod.git [wrapDir] ("app") [pkgEntry] rfl⟩

/-- Counterexample to claim C9: on an HTTP 404 the curl command still exits zero because it runs without the fail flag, so the job fails at the unzip step and the terminal payload message names extraction, not download. -/

theorem http404_zip_failure_not_download_attributed :
    cmCurlOk e404 = true ∧
    cmPipeline e404 = some
      { build_id := "b1", client_id := "c1", output_url := "",
        status := "failed", message := "Failed to extract zip file." } ∧
    strContains ("Failed to extract zip file.") ("download") = false := by decide

/-- Claim C9 amended: a zip download that receives an HTTP error response yields a terminal payload with status failed and empty output_url, but its message is the extract-failure message, which does not contain the word download; only transport-level curl failures produce the download-attributed message. -/

theorem zip_download_error_attribution (e : CMEnv)
    (hg : strContains e.url (".git") = false)
    (hz : strContains e.url (".zip") = true)
    (ht : e.transportOk = true) (hh : e.httpOk = false) :
    cmStep1 e = some CMFailure.extractFailed ∧
    (∀ p, cmPipeline e = some p → p.status = "failed" ∧ p.output_url = "" ∧
      p.message = "Failed to extract zip file.") ∧
    strContains ("Failed to extract zip file.") ("download") = false := by
  have h1 : cmStep1 e = some CMFailure.extractFailed := by
    unfold cmStep1 cmCurlOk cmUnzipOk
    simp [hg, hz, ht, hh]
  refine ⟨h1, ?_, by decide⟩
  intro p hp
  unfold cmPipeline at hp
  rw [h1] at hp
  simp only [Option.some.injEq] at hp
  rw [← hp]
  exact ⟨rfl, rfl, rfl⟩

/-- Witness for the amended claim C9 at the concrete 404 environment. -/

theorem zip_download_error_attribution_witness :
    cmStep1 e404 = some CMFailure.extractFailed ∧
    e404.transportOk = true ∧ e404.httpOk = false ∧
    (cmPipeline e404 = some
      { build_id := "b1", client_id := "c1", output_url := "",
        status := "failed", message := "Failed to extract zip file." }) ∧
    ({ build_id := "b1", client_id := "c1", output_url := "",
        status := "failed", message := "Failed to extract zip file." } : Payload).status = "failed" := by
  have h := zip_download_error_attribution e404 (by decide) (by decide) rfl rfl
  refine ⟨h.1, rfl, rfl, by decide, ?_⟩
  exact (h.2.1 _ (by decide)).1

/-- Claim C10: a request missing source_url or client_id receives the synchronous bad-request rejection and the handler performs no effect at all: no workspace directory is created and no notification can occur. -/

theorem missing_fields_synchronous_rejection (w : ApiWorld) (req : ApiRequest)
    (h : req.source_url = none ∨ req.client_id = none) :
    (apiBuildHandler w req).1 =
      ApiResponse.badRequest ("source_url and client_id are required") ∧
    (apiBuildHandler w req).2 = [] := by
  rcases h with h | h
  · simp [apiBuildHandler, truthy, h]
  · simp [apiBuildHandler, truthy, h]

/-- Witness for claim C10 at a request missing client_id. -/

theorem missing_fields_synchronous_rejection_witness :
    (apiBuildHandler wAllOk reqNoClient).1 =
      ApiResponse.badRequest ("source_url and client_id are required") ∧
    (apiBuildHandler wAllOk reqNoClient).2 = [] :=
  missing_fields_synchronous_rejection wAllOk reqNoClient (Or.inr rfl)
